import Mathlib

/-!
Verification of the workout-tracker local data layer (src/db.js).

The data layer is a Dexie (IndexedDB) store.  We shallowly embed it as a
pure state-transition system: each table is a list of rows kept in
insertion order, a Dexie primary key is a `Nat`, `put` is an upsert by
key, `add` appends with a fresh auto-incremented key (modelled as
max-key + 1), and an async function that throws is modelled as
`Except String`.  Timestamps produced by `new Date().toISOString()` are
modelled as an explicit `now : String` argument.  JS numbers are
modelled as `ℚ` (all values in the claims are exact decimals).

The repository contains several revisions of src/db.js.  The primary
embedding below follows the latest revision (schema v4, the second
document of src/unnamed/part_005, which matches the current App.jsx).
Namespace `Rev2` embeds the earlier schema-v2 revision (the first
document of src/unnamed/part_004), which several claims also cite: it
is the revision that computes the PR `improvements` report, rejects
unknown import modes, and allow-lists `updateSet` patch keys.
-/

/-! ### Generic Dexie-table helpers (lists with a Nat key) -/

/-- Dexie `Table.put`: replace the first row with the same primary key,
or append when no row has that key. -/
def putBy {α : Type} (key : α → Nat) (x : α) : List α → List α
  | [] => [x]
  | y :: ys => if key y = key x then x :: ys else y :: putBy key x ys

/-- Dexie `Table.bulkPut`: upsert the rows in order. -/
def bulkPut {α : Type} (key : α → Nat) (tbl : List α) (rows : List α) : List α :=
  rows.foldl (fun t r => putBy key r t) tbl

/-- Dexie `Table.update(id, patch)`: apply `f` to the row with key `id`
(no-op when the row does not exist). -/
def updateBy {α : Type} (key : α → Nat) (id : Nat) (f : α → α) : List α → List α
  | [] => []
  | y :: ys => if key y = id then f y :: ys else y :: updateBy key id f ys

/-- Dexie auto-increment (`++id`) key for a fresh insert, modelled as one
more than the largest key in the table. -/
def freshId (ids : List Nat) : Nat := ids.foldl max 0 + 1

/-- JS `String.prototype.slice(0, 10)`: the first 10 characters, written
over the character list so that it reduces structurally (the library
`String.take` does not reduce well). -/
def jsSlice10 (s : String) : String := String.mk (s.data.take 10)

/-- Rational addition written through `Rat.divInt` so that it reduces in
the kernel (the library `Rat.add` is irreducible); `qadd_eq` below proves
it equal to `+`. -/
def qadd (a b : ℚ) : ℚ := Rat.divInt (a.num * b.den + b.num * a.den) (a.den * b.den)

/-- Rational multiplication through `Rat.divInt`; `qmul_eq` below proves
it equal to `*`. -/
def qmul (a b : ℚ) : ℚ := Rat.divInt (a.num * b.num) (a.den * b.den)

/-- Rational division through `Rat.divInt`; `qdiv_eq` below proves it
equal to `/`. -/
def qdiv (a b : ℚ) : ℚ := Rat.divInt (a.num * b.den) (a.den * b.num)

/-- JS `Math.round`, which is `floor (x + 1/2)`. -/
def jsRound (q : ℚ) : ℤ := Rat.floor (qadd q (qdiv 1 2))

/-- JS `Math.max(0, ...vals)`. -/
def jsMax0 (vals : List ℚ) : ℚ := vals.foldl max 0

/-- JS `m || null` applied to a non-negative number `m`: `0` becomes
`null`, anything else is kept. -/
def orNull (q : ℚ) : Option ℚ := if q = 0 then none else some q

/-- States that an optional PR metric is either `null` or strictly
positive. -/
def nullOrPos (o : Option ℚ) : Prop :=
  match o with
  | none => True
  | some q => 0 < q

instance {ε α : Type} [DecidableEq ε] [DecidableEq α] : DecidableEq (Except ε α) := fun a b =>
  match a, b with
  | Except.ok x, Except.ok y =>
      if h : x = y then Decidable.isTrue (congrArg Except.ok h)
      else Decidable.isFalse (fun he => h (by cases he; rfl))
  | Except.error x, Except.error y =>
      if h : x = y then Decidable.isTrue (congrArg Except.error h)
      else Decidable.isFalse (fun he => h (by cases he; rfl))
  | Except.ok _, Except.error _ => Decidable.isFalse (fun he => Except.noConfusion he)
  | Except.error _, Except.ok _ => Decidable.isFalse (fun he => Except.noConfusion he)

/-! ### Row types (schema v4) -/

/-- A row of the `exercises` table. -/
structure Exercise where
  id : Nat
  name : String
  type : String
  isTimed : Bool
  createdAt : String
deriving Repr, DecidableEq

/-- A row of the `workouts` table. -/
structure Workout where
  id : Nat
  dateISO : String
  notes : String
deriving Repr, DecidableEq

/-- A row of the `sets` table.  `reps`, `weightKg` and `durationSec` are
JS `number | null`. -/
structure SetRow where
  id : Nat
  workoutId : Nat
  exerciseId : Nat
  setIndex : Nat
  reps : Option ℚ
  weightKg : Option ℚ
  durationSec : Option ℚ
deriving Repr, DecidableEq

/-- A row of the `prs` table (primary key `exerciseId`). -/
structure PRRow where
  exerciseId : Nat
  bestWeight : Option ℚ
  bestReps : Option ℚ
  bestDurationSec : Option ℚ
  best1RM : Option ℚ
  updatedAt : String
deriving Repr, DecidableEq

/-- A row of the `templates` table. -/
structure Template where
  id : Nat
  name : String
  createdAt : String
deriving Repr, DecidableEq

/-- A row of the `templateItems` table (the fields `addTemplateItem`
writes). -/
structure TemplateItem where
  id : Nat
  templateId : Nat
  exerciseId : Nat
  order : Nat
  defaultReps : Option ℚ
  defaultDurationSec : Option ℚ
  defaultWeightKg : Option ℚ
deriving Repr, DecidableEq

/-- The whole database (schema v4: six tables). -/
structure DB where
  exercises : List Exercise
  workouts : List Workout
  sets : List SetRow
  prs : List PRRow
  templates : List Template
  templateItems : List TemplateItem
deriving Repr, DecidableEq

/-- The `tables` object of an export payload (schema v4). -/
structure Tables where
  exercises : List Exercise
  workouts : List Workout
  sets : List SetRow
  prs : List PRRow
  templates : List Template
  templateItems : List TemplateItem
deriving Repr, DecidableEq

/-- The export envelope produced by `exportAll`. -/
structure Export where
  schemaVersion : Nat
  exportedAt : String
  tables : Tables
deriving Repr, DecidableEq

/-! ### Operations of the latest revision (schema v4, part_005) -/

/-- `epley1RM(weight, reps)`: `0` when either input is falsy, otherwise
`Math.round(w * (1 + r / 30))`. -/
def epley1RM (weight reps : ℚ) : ℚ :=
  if weight = 0 ∨ reps = 0 then 0
  else ((jsRound (qmul weight (qadd 1 (qdiv reps 30))) : ℤ) : ℚ)

/-- `updateExerciseTimed(id, isTimed)`: throws when the exercise already
has logged sets, otherwise updates the `isTimed` flag. -/
def updateExerciseTimed (db : DB) (id : Nat) (isTimed : Bool) : Except String DB :=
  let count := (db.sets.filter (fun s => s.exerciseId == id)).length
  if count > 0 then
    Except.error "Cannot convert timed/reps because this exercise already has logged sets."
  else
    Except.ok { db with
      exercises := updateBy (fun e => e.id) id (fun e => { e with isTimed := isTimed }) db.exercises }

/-- `deleteExercise(id)`: one transaction deleting the sets referencing
the exercise, the PR row keyed by the exercise, and the exercise row. -/
def deleteExercise (db : DB) (id : Nat) : DB :=
  { db with
    sets := db.sets.filter (fun s => !(s.exerciseId == id)),
    prs := db.prs.filter (fun p => !(p.exerciseId == id)),
    exercises := db.exercises.filter (fun e => !(e.id == id)) }

/-- `createWorkout(dateISO, notes)`: normalizes the date to its first 10
characters, returns the id of an existing workout for that date when one
exists, otherwise inserts a new row.  Returns (new state, returned id). -/
def createWorkout (db : DB) (dateISO : String) (notes : String) : DB × Nat :=
  let cleanDate := jsSlice10 dateISO
  match db.workouts.find? (fun w => w.dateISO == cleanDate) with
  | some w => (db, w.id)
  | none =>
      let fid := freshId (db.workouts.map (fun w => w.id))
      ({ db with workouts := db.workouts ++ [{ id := fid, dateISO := cleanDate, notes := notes }] }, fid)

/-- A patch object passed to `updateSet`.  An outer `none` means the key
is absent from the patch; `workoutId` and `exerciseId` model keys that
are outside the spec's allow-list but are real row fields. -/
structure SetPatch where
  workoutId : Option Nat
  exerciseId : Option Nat
  setIndex : Option Nat
  reps : Option (Option ℚ)
  weightKg : Option (Option ℚ)
  durationSec : Option (Option ℚ)
deriving Repr, DecidableEq

/-- Effect of `db.sets.update(id, patch)` on one row: every key present
in the patch overwrites the corresponding field. -/
def applyPatch (p : SetPatch) (s : SetRow) : SetRow :=
  { s with
    workoutId := p.workoutId.getD s.workoutId,
    exerciseId := p.exerciseId.getD s.exerciseId,
    setIndex := p.setIndex.getD s.setIndex,
    reps := p.reps.getD s.reps,
    weightKg := p.weightKg.getD s.weightKg,
    durationSec := p.durationSec.getD s.durationSec }

/-- `updateSet(id, patch)` (v4 revision): reads the existing row, applies
the whole patch, and returns the prior `exerciseId` (or `null`). -/
def updateSet (db : DB) (id : Nat) (p : SetPatch) : DB × Option Nat :=
  let existing := db.sets.find? (fun s => s.id == id)
  ({ db with sets := updateBy (fun s => s.id) id (applyPatch p) db.sets },
   existing.map (fun s => s.exerciseId))

/-- `updatePRForExercise(exerciseId)` (v4 revision): recomputes the four
maxima from the full set history and upserts the snapshot; returns
`null` when the exercise does not exist.  This revision returns only
`{ current }`, with no improvements report. -/
def updatePRForExercise (db : DB) (exerciseId : Nat) (now : String) : DB × Option PRRow :=
  match db.exercises.find? (fun e => e.id == exerciseId) with
  | none => (db, none)
  | some _ =>
      let sets := db.sets.filter (fun s => s.exerciseId == exerciseId)
      let next : PRRow :=
        { exerciseId := exerciseId,
          bestWeight := orNull (jsMax0 (sets.map (fun s => s.weightKg.getD 0))),
          bestReps := orNull (jsMax0 (sets.map (fun s => s.reps.getD 0))),
          bestDurationSec := orNull (jsMax0 (sets.map (fun s => s.durationSec.getD 0))),
          best1RM := orNull (jsMax0 (sets.map (fun s => epley1RM (s.weightKg.getD 0) (s.reps.getD 0)))),
          updatedAt := now }
      ({ db with prs := putBy (fun p => p.exerciseId) next db.prs }, some next)

/-- `recalcAllPRs()`: recomputes the PR snapshot of every exercise. -/
def recalcAllPRs (db : DB) (now : String) : DB :=
  db.exercises.foldl (fun acc ex => (updatePRForExercise acc ex.id now).1) db

/-- `addTemplateItem(templateId, exerciseId)`: returns the id of an
existing item for the pair, otherwise appends a new item at
`order = count + 1`. -/
def addTemplateItem (db : DB) (templateId exerciseId : Nat) : DB × Nat :=
  match db.templateItems.find? (fun it => it.templateId == templateId && it.exerciseId == exerciseId) with
  | some it => (db, it.id)
  | none =>
      let count := (db.templateItems.filter (fun it => it.templateId == templateId)).length
      let fid := freshId (db.templateItems.map (fun it => it.id))
      ({ db with templateItems := db.templateItems ++
          [{ id := fid, templateId := templateId, exerciseId := exerciseId, order := count + 1,
             defaultReps := none, defaultDurationSec := none, defaultWeightKg := none }] }, fid)

/-- `exportAll()`: snapshot all six tables into the export envelope. -/
def exportAll (db : DB) (now : String) : Export :=
  { schemaVersion := 3, exportedAt := now,
    tables :=
      { exercises := db.exercises, workouts := db.workouts, sets := db.sets,
        prs := db.prs, templates := db.templates, templateItems := db.templateItems } }

/-- The `clear()` of every table done by the replace branch. -/
def clearAll (_db : DB) : DB :=
  { exercises := [], workouts := [], sets := [], prs := [], templates := [], templateItems := [] }

/-- `importAll(payload, {mode})` (v4 revision): validates the payload,
clears the tables when `mode` is `"replace"`, bulk-upserts every table,
then recalculates all PRs.  Note this revision applies the merge
behaviour to every mode other than `"replace"` without rejecting
unknown modes. -/
def importAll (db : DB) (payload : Option Export) (mode : String) (now : String) : Except String DB :=
  match payload with
  | none => Except.error "Invalid payload"
  | some p =>
      let t := p.tables
      let db1 := if mode == "replace" then clearAll db else db
      let db2 : DB :=
        { exercises := bulkPut (fun e => e.id) db1.exercises t.exercises,
          workouts := bulkPut (fun w => w.id) db1.workouts t.workouts,
          sets := bulkPut (fun s => s.id) db1.sets t.sets,
          prs := bulkPut (fun pr => pr.exerciseId) db1.prs t.prs,
          templates := bulkPut (fun tp => tp.id) db1.templates t.templates,
          templateItems := bulkPut (fun it => it.id) db1.templateItems t.templateItems }
      Except.ok (recalcAllPRs db2 now)

/-! ### Operations of the earlier schema-v2 revision (part_004)

This revision has four tables (no templates) and is the one that builds
the PR `improvements` report, rejects unknown import modes, and
allow-lists the `updateSet` patch keys. -/

namespace Rev2

/-- The schema-v2 database (four tables). -/
structure DB where
  exercises : List Exercise
  workouts : List Workout
  sets : List SetRow
  prs : List PRRow
deriving Repr, DecidableEq

/-- One `{old, new}` entry of the improvements report. -/
structure ImpEntry where
  old : Option ℚ
  new : Option ℚ
deriving Repr, DecidableEq

/-- The improvements map: at most one entry per metric. -/
structure Improvements where
  bestWeight : Option ImpEntry
  bestReps : Option ImpEntry
  bestDurationSec : Option ImpEntry
  best1RM : Option ImpEntry
deriving Repr, DecidableEq

/-- The `{current, improvements}` result of `updatePRForExercise`. -/
structure PRResult where
  current : PRRow
  improvements : Improvements
deriving Repr, DecidableEq

/-- The `tables` object of a schema-v2 export payload. -/
structure Tables where
  exercises : List Exercise
  workouts : List Workout
  sets : List SetRow
  prs : List PRRow
deriving Repr, DecidableEq

/-- A schema-v2 export envelope. -/
structure Export where
  schemaVersion : Nat
  exportedAt : String
  tables : Tables
deriving Repr, DecidableEq

/-- Helper for the v2 maxima: `m > 0 ? m : null`. -/
def posOrNull (m : ℚ) : Option ℚ := if 0 < m then some m else none

/-- `updatePRForExercise(exerciseId)` (v2 revision): computes the same
four maxima (each `typeof`-guarded value defaulting to 0), builds the
`{old, new}` improvements report against the previous snapshot, upserts
the new snapshot, and returns `{current, improvements}`. -/
def updatePRForExercise (db : DB) (exerciseId : Nat) (now : String) : DB × Option PRResult :=
  match db.exercises.find? (fun e => e.id == exerciseId) with
  | none => (db, none)
  | some _ =>
      let sets := db.sets.filter (fun s => s.exerciseId == exerciseId)
      let prev := db.prs.find? (fun p => p.exerciseId == exerciseId)
      let next : PRRow :=
        { exerciseId := exerciseId,
          bestWeight := posOrNull (jsMax0 (sets.map (fun s => s.weightKg.getD 0))),
          bestReps := posOrNull (jsMax0 (sets.map (fun s => s.reps.getD 0))),
          bestDurationSec := posOrNull (jsMax0 (sets.map (fun s => s.durationSec.getD 0))),
          best1RM := posOrNull (jsMax0 (sets.map (fun s =>
            match s.weightKg, s.reps with
            | some w, some r => epley1RM w r
            | _, _ => 0))),
          updatedAt := now }
      let improvements : Improvements :=
        match prev with
        | some pr =>
            { bestWeight :=
                if pr.bestWeight.getD 0 < next.bestWeight.getD 0 then
                  some { old := pr.bestWeight, new := next.bestWeight } else none,
              bestReps :=
                if pr.bestReps.getD 0 < next.bestReps.getD 0 then
                  some { old := pr.bestReps, new := next.bestReps } else none,
              bestDurationSec :=
                if pr.bestDurationSec.getD 0 < next.bestDurationSec.getD 0 then
                  some { old := pr.bestDurationSec, new := next.bestDurationSec } else none,
              best1RM :=
                if pr.best1RM.getD 0 < next.best1RM.getD 0 then
                  some { old := pr.best1RM, new := next.best1RM } else none }
        | none =>
            { bestWeight := if next.bestWeight.isSome then some { old := none, new := next.bestWeight } else none,
              bestReps := if next.bestReps.isSome then some { old := none, new := next.bestReps } else none,
              bestDurationSec := if next.bestDurationSec.isSome then some { old := none, new := next.bestDurationSec } else none,
              best1RM := if next.best1RM.isSome then some { old := none, new := next.best1RM } else none }
      ({ db with prs := putBy (fun p => p.exerciseId) next db.prs },
       some { current := next, improvements := improvements })

/-- `recalcAllPRs()` (v2 revision). -/
def recalcAllPRs (db : DB) (now : String) : DB :=
  db.exercises.foldl (fun acc ex => (updatePRForExercise acc ex.id now).1) db

/-- `importAll(payload, {mode})` (v2 revision): replace clears then
bulk-upserts, merge bulk-upserts, both then recalculate all PRs, and
every other mode throws `"Unknown import mode"` without touching any
table. -/
def importAll (db : DB) (payload : Option Export) (mode : String) (now : String) : Except String DB :=
  match payload with
  | none => Except.error "Invalid payload"
  | some p =>
      let t := p.tables
      if mode == "replace" then
        let db2 : DB :=
          { exercises := bulkPut (fun e => e.id) [] t.exercises,
            workouts := bulkPut (fun w => w.id) [] t.workouts,
            sets := bulkPut (fun s => s.id) [] t.sets,
            prs := bulkPut (fun pr => pr.exerciseId) [] t.prs }
        Except.ok (recalcAllPRs db2 now)
      else if mode == "merge" then
        let db2 : DB :=
          { exercises := bulkPut (fun e => e.id) db.exercises t.exercises,
            workouts := bulkPut (fun w => w.id) db.workouts t.workouts,
            sets := bulkPut (fun s => s.id) db.sets t.sets,
            prs := bulkPut (fun pr => pr.exerciseId) db.prs t.prs }
        Except.ok (recalcAllPRs db2 now)
      else
        Except.error "Unknown import mode"

end Rev2

/-! ### Concrete states used by the per-claim evaluations and witnesses -/

/-- Exercise fixture: a weighted, non-timed exercise with id 1. -/
def benchEx : Exercise :=
  { id := 1, name := "Bench Press", type := "weighted", isTimed := false, createdAt := "c1" }

/-- Set fixture: 100 kg x 5 reps for exercise 1. -/
def benchSet : SetRow :=
  { id := 1, workoutId := 1, exerciseId := 1, setIndex := 1,
    reps := some 5, weightKg := some 100, durationSec := none }

/-- C1 fixture: a populated database whose PR row carries timestamp "T0". -/
def c1db : DB :=
  { exercises := [benchEx],
    workouts := [{ id := 1, dateISO := "2024-01-02", notes := "" }],
    sets := [benchSet],
    prs := [{ exerciseId := 1, bestWeight := some 100, bestReps := some 5,
              bestDurationSec := none, best1RM := some 117, updatedAt := "T0" }],
    templates := [], templateItems := [] }

/-- C1 fixture: the state after the round trip at import time "T1" — the
PR row has been recomputed with the fresh timestamp. -/
def c1out : DB :=
  { exercises := [benchEx],
    workouts := [{ id := 1, dateISO := "2024-01-02", notes := "" }],
    sets := [benchSet],
    prs := [{ exerciseId := 1, bestWeight := some 100, bestReps := some 5,
              bestDurationSec := none, best1RM := some 117, updatedAt := "T1" }],
    templates := [], templateItems := [] }

/-- C1 witness fixture: a populated database with no exercises, so the
concluding PR recompute writes nothing. -/
def c1wdb : DB :=
  { exercises := [],
    workouts := [{ id := 1, dateISO := "2024-03-01", notes := "leg day" }],
    sets := [],
    prs := [],
    templates := [{ id := 1, name := "Push", createdAt := "c" }],
    templateItems := [] }

/-- C2 fixture: schema-v2 state — exercise 1, one 100 kg x 5 set, no PR
row yet. -/
def c2dbR2 : Rev2.DB :=
  { exercises := [benchEx],
    workouts := [{ id := 1, dateISO := "2024-01-02", notes := "" }],
    sets := [benchSet], prs := [] }

/-- C2 fixture: the snapshot `updatePRForExercise` computes for the
100 kg x 5 history at time "T1". -/
def c2next : PRRow :=
  { exerciseId := 1, bestWeight := some 100, bestReps := some 5,
    bestDurationSec := none, best1RM := some 117, updatedAt := "T1" }

/-- C2 fixture: the expected v2 `{current, improvements}` result — every
non-null metric improves from the `null` baseline. -/
def c2resR2 : Rev2.PRResult :=
  { current := c2next,
    improvements :=
      { bestWeight := some { old := none, new := some 100 },
        bestReps := some { old := none, new := some 5 },
        bestDurationSec := none,
        best1RM := some { old := none, new := some 117 } } }

/-- C2 fixture: the expected v2 state after the call. -/
def c2outR2 : Rev2.DB := { c2dbR2 with prs := [c2next] }

/-- C2 fixture: the same scenario as a schema-v4 state. -/
def c2db : DB :=
  { exercises := [benchEx],
    workouts := [{ id := 1, dateISO := "2024-01-02", notes := "" }],
    sets := [benchSet], prs := [], templates := [], templateItems := [] }

/-- C2 fixture: the expected v4 state after the call. -/
def c2out : DB := { c2db with prs := [c2next] }

/-- C3 fixture: exercise 1 with a set, a PR row, and a template item
referencing it. -/
def c3db : DB :=
  { exercises := [benchEx],
    workouts := [],
    sets := [benchSet],
    prs := [{ exerciseId := 1, bestWeight := some 100, bestReps := some 5,
              bestDurationSec := none, best1RM := some 117, updatedAt := "T0" }],
    templates := [{ id := 1, name := "Push", createdAt := "c" }],
    templateItems := [{ id := 1, templateId := 1, exerciseId := 1, order := 1,
                        defaultReps := none, defaultDurationSec := none, defaultWeightKg := none }] }

/-- C4 witness fixture: an empty database. -/
def c4wdb : DB :=
  { exercises := [], workouts := [], sets := [], prs := [], templates := [], templateItems := [] }

/-- C5 fixture: a database holding exercise 1 only. -/
def c5ex7 : Exercise :=
  { id := 7, name := "Row", type := "weighted", isTimed := false, createdAt := "c7" }

/-- C5 fixture: pre-import v4 state. -/
def c5db : DB :=
  { exercises := [{ id := 1, name := "Squat", type := "weighted", isTimed := false, createdAt := "c1" }],
    workouts := [], sets := [], prs := [], templates := [], templateItems := [] }

/-- C5 fixture: a well-formed payload carrying exercise 7. -/
def c5payload : Export :=
  { schemaVersion := 3, exportedAt := "E",
    tables := { exercises := [c5ex7], workouts := [], sets := [], prs := [],
                templates := [], templateItems := [] } }

/-- C5 fixture: what the v4 code produces for the unknown mode "banana":
the payload is merged and all PRs recomputed — no error. -/
def c5out : DB :=
  { exercises := [{ id := 1, name := "Squat", type := "weighted", isTimed := false, createdAt := "c1" },
                  c5ex7],
    workouts := [], sets := [],
    prs := [{ exerciseId := 1, bestWeight := none, bestReps := none,
              bestDurationSec := none, best1RM := none, updatedAt := "T1" },
            { exerciseId := 7, bestWeight := none, bestReps := none,
              bestDurationSec := none, best1RM := none, updatedAt := "T1" }],
    templates := [], templateItems := [] }

/-- C5 fixture: the same pre-import state for the v2 revision. -/
def c5dbR2 : Rev2.DB :=
  { exercises := [{ id := 1, name := "Squat", type := "weighted", isTimed := false, createdAt := "c1" }],
    workouts := [], sets := [], prs := [] }

/-- C5 fixture: the same payload in the v2 envelope. -/
def c5payloadR2 : Rev2.Export :=
  { schemaVersion := 2, exportedAt := "E",
    tables := { exercises := [c5ex7], workouts := [], sets := [], prs := [] } }

/-- C6 counterexample fixture: one set belonging to exercise 1. -/
def c6db : DB :=
  { exercises := [], workouts := [], sets := [benchSet], prs := [], templates := [], templateItems := [] }

/-- C6 counterexample fixture: a patch whose only key, `exerciseId`, is
outside the spec's allow-list. -/
def c6patch : SetPatch :=
  { workoutId := none, exerciseId := some 99, setIndex := none,
    reps := none, weightKg := none, durationSec := none }

/-- C6 witness fixture: one set with id 2. -/
def c6wdb : DB :=
  { exercises := [], workouts := [],
    sets := [{ id := 2, workoutId := 1, exerciseId := 3, setIndex := 1,
               reps := some 5, weightKg := some 100, durationSec := none }],
    prs := [], templates := [], templateItems := [] }

/-- C6 witness fixture: an allow-listed patch setting reps to 8. -/
def c6wpatch : SetPatch :=
  { workoutId := none, exerciseId := none, setIndex := none,
    reps := some (some 8), weightKg := none, durationSec := none }

/-- C7 witness fixture: an exercise with zero logged sets. -/
def c7wex : Exercise :=
  { id := 1, name := "Plank", type := "bodyweight", isTimed := false, createdAt := "c" }

/-- C7 witness fixture: database holding only that exercise. -/
def c7wdb : DB :=
  { exercises := [c7wex], workouts := [], sets := [], prs := [], templates := [], templateItems := [] }

/-- C8 witness fixture: one template, one exercise, no items yet. -/
def c8wdb : DB :=
  { exercises := [{ id := 2, name := "Bench", type := "weighted", isTimed := false, createdAt := "c" }],
    workouts := [], sets := [], prs := [],
    templates := [{ id := 1, name := "Push", createdAt := "c" }],
    templateItems := [] }

/-- C9 witness fixture: exercise 1 with one 100 kg x 5 set and no PR row. -/
def c9db : DB :=
  { exercises := [benchEx], workouts := [], sets := [benchSet],
    prs := [], templates := [], templateItems := [] }

/-- C9 witness fixture: the PR row the call writes. -/
def c9row : PRRow :=
  { exerciseId := 1, bestWeight := some 100, bestReps := some 5,
    bestDurationSec := none, best1RM := some 117, updatedAt := "T" }

/-- C9 witness fixture: the state after the call. -/
def c9db2 : DB := { c9db with prs := [c9row] }

/-- C4 witness fixture: the state after the first `createWorkout` call on
the empty database. -/
def c4wdb1 : DB :=
  { exercises := [], workouts := [{ id := 1, dateISO := "2024-05-06", notes := "" }],
    sets := [], prs := [], templates := [], templateItems := [] }

/-- C8 witness fixture: the state after the first `addTemplateItem` call. -/
def c8wdb1 : DB :=
  { exercises := [{ id := 2, name := "Bench", type := "weighted", isTimed := false, createdAt := "c" }],
    workouts := [], sets := [], prs := [],
    templates := [{ id := 1, name := "Push", createdAt := "c" }],
    templateItems := [{ id := 1, templateId := 1, exerciseId := 2, order := 1,
                        defaultReps := none, defaultDurationSec := none, defaultWeightKg := none }] }

/-- C10 witness fixture: pre-import state with one workout. -/
def c10wdb : DB :=
  { exercises := [], workouts := [{ id := 1, dateISO := "2024-01-01", notes := "keep" }],
    sets := [], prs := [], templates := [], templateItems := [] }

/-- C10 witness fixture: a payload carrying a different workout. -/
def c10wp : Export :=
  { schemaVersion := 3, exportedAt := "E",
    tables := { exercises := [], workouts := [{ id := 2, dateISO := "2024-02-02", notes := "new" }],
                sets := [], prs := [], templates := [], templateItems := [] } }

/-- C10 witness fixture: the merged state — both workouts present. -/
def c10wout : DB :=
  { exercises := [],
    workouts := [{ id := 1, dateISO := "2024-01-01", notes := "keep" },
                 { id := 2, dateISO := "2024-02-02", notes := "new" }],
    sets := [], prs := [], templates := [], templateItems := [] }

/-! ### Helper lemmas about the table primitives -/

/-- The kernel-friendly addition agrees with rational addition. -/
theorem qadd_eq (a b : ℚ) : qadd a b = a + b := by
  rw [qadd]
  rw [← Rat.num_divInt_den a, ← Rat.num_divInt_den b]
  rw [Rat.divInt_add_divInt _ _ (by exact_mod_cast a.den_nz) (by exact_mod_cast b.den_nz)]
  norm_num

/-- The kernel-friendly multiplication agrees with rational
multiplication. -/
theorem qmul_eq (a b : ℚ) : qmul a b = a * b := by
  rw [qmul]
  rw [← Rat.num_divInt_den a, ← Rat.num_divInt_den b]
  rw [Rat.divInt_mul_divInt _ _ (by exact_mod_cast a.den_nz) (by exact_mod_cast b.den_nz)]
  norm_num

/-- The kernel-friendly division agrees with rational division
(both send division by zero to zero). -/
theorem qdiv_eq (a b : ℚ) : qdiv a b = a / b := by
  by_cases hb : b = 0
  · subst hb
    show Rat.divInt (a.num * 1) ((a.den : ℤ) * 0) = a / 0
    rw [mul_zero, Rat.divInt_zero, div_zero]
  · have hbn : b.num ≠ 0 := Rat.num_ne_zero.mpr hb
    have hinv : b⁻¹ = Rat.divInt (b.den) b.num := Rat.inv_def b
    have h2 : a / b = Rat.divInt (a.num * b.den) ((a.den : ℤ) * b.num) := by
      rw [div_eq_mul_inv, hinv]
      conv_lhs => rw [← Rat.num_divInt_den a]
      rw [Rat.divInt_mul_divInt _ _ (by exact_mod_cast a.den_nz) hbn]
    rw [h2, qdiv]

/-- `jsRound` is the textbook `Math.round`: the floor of `q + 1/2`. -/
theorem jsRound_eq (q : ℚ) : jsRound q = ⌊q + 1/2⌋ := by
  rw [jsRound, qadd_eq, qdiv_eq]
  rfl

/-- `epley1RM` computes `round (w * (1 + r / 30))` on non-degenerate
inputs — the formula the spec states. -/
theorem epley1RM_eq (w r : ℚ) (h : ¬(w = 0 ∨ r = 0)) :
    epley1RM w r = ((⌊w * (1 + r / 30) + 1/2⌋ : ℤ) : ℚ) := by
  rw [epley1RM, if_neg h, qmul_eq, qadd_eq, qdiv_eq, jsRound_eq]

/-- The row passed to `putBy` is in the result. -/
theorem mem_putBy_self {α : Type} (key : α → Nat) (x : α) :
    ∀ l : List α, x ∈ putBy key x l
  | [] => List.mem_singleton.mpr rfl
  | y :: ys => by
      by_cases h : key y = key x
      · simp [putBy, h]
      · simp only [putBy, if_neg h]
        exact List.mem_cons_of_mem y (mem_putBy_self key x ys)

/-- `putBy` keeps every row whose key differs from the upserted key. -/
theorem mem_putBy_of_key_ne {α : Type} (key : α → Nat) (x z : α) (hk : key z ≠ key x) :
    ∀ l : List α, z ∈ l → z ∈ putBy key x l
  | [], hz => absurd hz (List.not_mem_nil z)
  | y :: ys, hz => by
      by_cases h : key y = key x
      · simp only [putBy, if_pos h]
        rcases List.mem_cons.mp hz with hzy | hzs
        · exact absurd (hzy ▸ h) hk
        · exact List.mem_cons_of_mem x hzs
      · simp only [putBy, if_neg h]
        rcases List.mem_cons.mp hz with hzy | hzs
        · exact hzy ▸ List.mem_cons_self y _
        · exact List.mem_cons_of_mem y (mem_putBy_of_key_ne key x z hk ys hzs)

/-- When no existing row has the upserted key, `putBy` appends. -/
theorem putBy_of_key_not_mem {α : Type} (key : α → Nat) (x : α) :
    ∀ l : List α, key x ∉ l.map key → putBy key x l = l ++ [x]
  | [], _ => rfl
  | y :: ys, h => by
      have hy : key y ≠ key x := by
        intro he
        exact h (by simp [he])
      simp only [putBy, if_neg hy, List.cons_append, List.cons.injEq, true_and]
      exact putBy_of_key_not_mem key x ys (fun hm => h (by simp [List.map_cons]; right; simpa using hm))

/-- `bulkPut` keeps every row whose key is hit by none of the upserts. -/
theorem bulkPut_mem {α : Type} (key : α → Nat) :
    ∀ (rows tbl : List α) (z : α), z ∈ tbl → key z ∉ rows.map key → z ∈ bulkPut key tbl rows
  | [], _, _, hz, _ => hz
  | r :: rs, tbl, z, hz, hk => by
      have hzr : key z ≠ key r := by
        intro he
        exact hk (by simp [he])
      have h1 : z ∈ putBy key r tbl := mem_putBy_of_key_ne key r z hzr tbl hz
      exact bulkPut_mem key rs (putBy key r tbl) z h1 (fun hm => hk (by simp [List.map_cons]; right; simpa using hm))

/-- `bulkPut` of rows with fresh, pairwise-distinct keys appends them. -/
theorem bulkPut_append_of_disjoint {α : Type} (key : α → Nat) :
    ∀ (rows tbl : List α), (rows.map key).Nodup → (∀ r ∈ rows, key r ∉ tbl.map key) →
      bulkPut key tbl rows = tbl ++ rows
  | [], tbl, _, _ => (List.append_nil tbl).symm
  | r :: rs, tbl, hnd, hdis => by
      have hr : key r ∉ tbl.map key := hdis r (List.mem_cons_self r rs)
      have h1 : putBy key r tbl = tbl ++ [r] := putBy_of_key_not_mem key r tbl hr
      have hnd' : (rs.map key).Nodup := (List.nodup_cons.mp hnd).2
      have hkr : key r ∉ rs.map key := (List.nodup_cons.mp hnd).1
      have hdis' : ∀ x ∈ rs, key x ∉ (tbl ++ [r]).map key := by
        intro x hx hm
        rw [List.map_append] at hm
        rcases List.mem_append.mp hm with hm1 | hm2
        · exact hdis x (List.mem_cons_of_mem r hx) hm1
        · have : key x = key r := by simpa using hm2
          exact hkr (this ▸ List.mem_map_of_mem key hx)
      calc bulkPut key tbl (r :: rs)
          = bulkPut key (putBy key r tbl) rs := rfl
        _ = bulkPut key (tbl ++ [r]) rs := by rw [h1]
        _ = (tbl ++ [r]) ++ rs := bulkPut_append_of_disjoint key rs (tbl ++ [r]) hnd' hdis'
        _ = tbl ++ (r :: rs) := by simp

/-- `bulkPut` into an empty table reproduces a duplicate-free row list. -/
theorem bulkPut_nil_of_nodup {α : Type} (key : α → Nat) (rows : List α)
    (hnd : (rows.map key).Nodup) : bulkPut key [] rows = rows := by
  have := bulkPut_append_of_disjoint key rows [] hnd (by intro r _; simp)
  simpa using this

/-- `updateBy` keeps every row whose key is not the updated one. -/
theorem mem_updateBy_of_key_ne {α : Type} (key : α → Nat) (id : Nat) (f : α → α) (z : α)
    (hk : key z ≠ id) : ∀ l : List α, z ∈ l → z ∈ updateBy key id f l
  | [], hz => absurd hz (List.not_mem_nil z)
  | y :: ys, hz => by
      by_cases h : key y = id
      · simp only [updateBy, if_pos h]
        rcases List.mem_cons.mp hz with hzy | hzs
        · exact absurd (hzy ▸ h) hk
        · exact List.mem_cons_of_mem (f y) hzs
      · simp only [updateBy, if_neg h]
        rcases List.mem_cons.mp hz with hzy | hzs
        · exact hzy ▸ List.mem_cons_self y _
        · exact List.mem_cons_of_mem y (mem_updateBy_of_key_ne key id f z hk ys hzs)

/-- On a duplicate-free table, looking up the updated key after
`updateBy` finds the transformed row, provided `f` preserves keys. -/
theorem find?_updateBy_of_nodup {α : Type} (key : α → Nat) (id : Nat) (f : α → α)
    (hf : ∀ a, key (f a) = key a) :
    ∀ (l : List α) (x : α), x ∈ l → key x = id → (l.map key).Nodup →
      (updateBy key id f l).find? (fun y => key y == id) = some (f x)
  | [], x, hx, _, _ => absurd hx (List.not_mem_nil x)
  | y :: ys, x, hx, hkx, hnd => by
      have hpair := List.nodup_cons.mp (show (key y :: ys.map key).Nodup from hnd)
      by_cases h : key y = id
      · have hxy : x = y := by
          rcases List.mem_cons.mp hx with hxy | hxs
          · exact hxy
          · have h2 : key y ∈ ys.map key := by
              rw [h, ← hkx]
              exact List.mem_map_of_mem key hxs
            exact absurd h2 hpair.1
        simp only [updateBy, if_pos h, List.find?_cons]
        have hfy : (key (f y) == id) = true := by simp [hf y, h]
        simp [hfy, hxy]
      · have hxs : x ∈ ys := by
          rcases List.mem_cons.mp hx with hxy | hxs
          · exact absurd (hxy ▸ hkx) h
          · exact hxs
        simp only [updateBy, if_neg h, List.find?_cons]
        have hpy : (key y == id) = false := by simp [h]
        simp only [hpy]
        exact find?_updateBy_of_nodup key id f hf ys x hxs hkx hpair.2

/-- A left fold of `max` never drops below its starting value. -/
theorem le_foldl_max (l : List ℚ) : ∀ q : ℚ, q ≤ l.foldl max q := by
  induction l with
  | nil => intro q; exact le_refl q
  | cons x xs ih =>
      intro q
      calc q ≤ max q x := le_max_left q x
        _ ≤ xs.foldl max (max q x) := ih (max q x)
        _ = (x :: xs).foldl max q := (List.foldl_cons xs q).symm

/-- `Math.max(0, ...)` is non-negative. -/
theorem jsMax0_nonneg (l : List ℚ) : 0 ≤ jsMax0 l := le_foldl_max l 0

/-- `m || null` on a non-negative number stores `null` or a positive
value, never `0`. -/
theorem nullOrPos_orNull (q : ℚ) (hq : 0 ≤ q) : nullOrPos (orNull q) := by
  by_cases h : q = 0
  · simp [orNull, h, nullOrPos]
  · simp only [orNull, if_neg h, nullOrPos]
    exact lt_of_le_of_ne hq (Ne.symm h)

/-- `updatePRForExercise` only writes the `prs` table. -/
theorem updatePRForExercise_frame (db : DB) (id : Nat) (now : String) :
    ((updatePRForExercise db id now).1).exercises = db.exercises ∧
    ((updatePRForExercise db id now).1).workouts = db.workouts ∧
    ((updatePRForExercise db id now).1).sets = db.sets ∧
    ((updatePRForExercise db id now).1).templates = db.templates ∧
    ((updatePRForExercise db id now).1).templateItems = db.templateItems := by
  cases h : db.exercises.find? (fun e => e.id == id) <;>
    simp [updatePRForExercise, h]

/-- The PR-recompute fold only writes the `prs` table. -/
theorem foldlPR_frame (now : String) : ∀ (l : List Exercise) (db : DB),
    ((l.foldl (fun acc ex => (updatePRForExercise acc ex.id now).1) db).exercises = db.exercises ∧
     (l.foldl (fun acc ex => (updatePRForExercise acc ex.id now).1) db).workouts = db.workouts ∧
     (l.foldl (fun acc ex => (updatePRForExercise acc ex.id now).1) db).sets = db.sets ∧
     (l.foldl (fun acc ex => (updatePRForExercise acc ex.id now).1) db).templates = db.templates ∧
     (l.foldl (fun acc ex => (updatePRForExercise acc ex.id now).1) db).templateItems = db.templateItems)
  | [], db => ⟨rfl, rfl, rfl, rfl, rfl⟩
  | x :: xs, db => by
      have h1 := updatePRForExercise_frame db x.id now
      have h2 := foldlPR_frame now xs ((updatePRForExercise db x.id now).1)
      refine ⟨?_, ?_, ?_, ?_, ?_⟩ <;>
        simp only [List.foldl_cons] <;>
        [exact h2.1.trans h1.1; exact h2.2.1.trans h1.2.1; exact h2.2.2.1.trans h1.2.2.1;
         exact h2.2.2.2.1.trans h1.2.2.2.1; exact h2.2.2.2.2.trans h1.2.2.2.2]

/-- `recalcAllPRs` only writes the `prs` table. -/
theorem recalcAllPRs_frame (db : DB) (now : String) :
    (recalcAllPRs db now).exercises = db.exercises ∧
    (recalcAllPRs db now).workouts = db.workouts ∧
    (recalcAllPRs db now).sets = db.sets ∧
    (recalcAllPRs db now).templates = db.templates ∧
    (recalcAllPRs db now).templateItems = db.templateItems :=
  foldlPR_frame now db.exercises db

/-- `find?` skips a prefix in which nothing matches. -/
theorem find?_append_of_none {α : Type} (p : α → Bool) (l1 l2 : List α)
    (h : l1.find? p = none) : (l1 ++ l2).find? p = l2.find? p := by
  rw [List.find?_append, h, Option.none_or]

/-- A found row is in the filtered table. -/
theorem find?_mem_filter {α : Type} (p : α → Bool) :
    ∀ (l : List α) (a : α), l.find? p = some a → a ∈ l.filter p
  | [], _, h => by simp [List.find?] at h
  | x :: xs, a, h => by
      rw [List.find?_cons] at h
      cases hp : p x with
      | true =>
          rw [hp] at h
          have hxa : x = a := Option.some.inj h
          rw [List.filter_cons, if_pos (by rw [hp])]
          exact hxa ▸ List.mem_cons_self x _
      | false =>
          rw [hp] at h
          have h2 : xs.find? p = some a := h
          rw [List.filter_cons, if_neg (by rw [hp]; exact Bool.false_ne_true)]
          exact find?_mem_filter p xs a h2

/-- `createWorkout` returns the first existing workout for the date. -/
theorem createWorkout_found (db : DB) (d n : String) (w : Workout)
    (hf : db.workouts.find? (fun x => x.dateISO == jsSlice10 d) = some w) :
    createWorkout db d n = (db, w.id) := by
  simp only [createWorkout]
  rw [hf]

/-- `createWorkout` appends a fresh row when no workout exists for the
date. -/
theorem createWorkout_not_found (db : DB) (d n : String)
    (hf : db.workouts.find? (fun x => x.dateISO == jsSlice10 d) = none) :
    createWorkout db d n =
      ({ db with workouts := db.workouts ++
          [{ id := freshId (db.workouts.map (fun x => x.id)), dateISO := jsSlice10 d,
             notes := n }] },
       freshId (db.workouts.map (fun x => x.id))) := by
  simp only [createWorkout]
  rw [hf]

/-- `addTemplateItem` returns the first existing item for the pair. -/
theorem addTemplateItem_found (db : DB) (t e : Nat) (it : TemplateItem)
    (hf : db.templateItems.find? (fun x => x.templateId == t && x.exerciseId == e) = some it) :
    addTemplateItem db t e = (db, it.id) := by
  simp only [addTemplateItem]
  rw [hf]

/-- `addTemplateItem` appends a fresh item at `order = count + 1` when no
item for the pair exists. -/
theorem addTemplateItem_not_found (db : DB) (t e : Nat)
    (hf : db.templateItems.find? (fun x => x.templateId == t && x.exerciseId == e) = none) :
    addTemplateItem db t e =
      ({ db with templateItems := db.templateItems ++
          [{ id := freshId (db.templateItems.map (fun x => x.id)), templateId := t,
             exerciseId := e,
             order := (db.templateItems.filter (fun x => x.templateId == t)).length + 1,
             defaultReps := none, defaultDurationSec := none, defaultWeightKg := none }] },
       freshId (db.templateItems.map (fun x => x.id))) := by
  simp only [addTemplateItem]
  rw [hf]

/-! ### Per-claim theorems -/

/-- Claim C2 (code evaluation): for an exercise with no PR row and a single
100 kg x 5 set, the schema-v2 revision of `updatePRForExercise` returns
`{current, improvements}` with `improvements.bestWeight = {old: null, new: 100}`
and snapshot `best1RM = 117`, exactly as the claim states; the latest (v4)
revision writes the same snapshot but its result carries no improvements
report at all. -/
theorem updatePR_improvement_scenario :
    Rev2.updatePRForExercise c2dbR2 1 "T1" = (c2outR2, some c2resR2) ∧
    c2resR2.improvements.bestWeight = some { old := none, new := some 100 } ∧
    c2resR2.improvements.bestReps = some { old := none, new := some 5 } ∧
    c2resR2.improvements.best1RM = some { old := none, new := some 117 } ∧
    c2resR2.current.best1RM = some 117 ∧
    updatePRForExercise c2db 1 "T1" = (c2out, some c2next) ∧
    c2next.bestWeight = some 100 ∧ c2next.best1RM = some 117 := by
  decide

/-- Claim C5 (code evaluation): the latest (v4) `importAll` accepts the
unknown mode "banana" and silently applies the merge behaviour (the
payload row with id 7 is upserted and the PR cache rebuilt), whereas the
schema-v2 revision rejects the same call with the "Unknown import mode"
error without touching any table. -/
theorem importAll_unknown_mode_eval :
    importAll c5db (some c5payload) "banana" "T1" = Except.ok c5out ∧
    c5out.exercises ≠ c5db.exercises ∧
    Rev2.importAll c5dbR2 (some c5payloadR2) "banana" "T1" =
      Except.error "Unknown import mode" := by
  decide

/-- Claim C1 counterexample: for a concrete populated database the
replace-mode round trip does not restore the `prs` table byte-for-byte —
the concluding `recalcAllPRs` rewrites the PR row with the import-time
timestamp. -/
theorem roundTrip_prs_changed :
    importAll c1db (some (exportAll c1db "TE")) "replace" "T1" = Except.ok c1out ∧
    c1out.prs ≠ c1db.prs := by
  decide

/-- Claim C3 counterexample: deleting exercise 1 removes its set, PR row
and exercise row, but the template item referencing exercise 1 survives —
the claimed template-item cascade does not exist in the code. -/
theorem deleteExercise_leaves_template_item :
    (deleteExercise c3db 1).exercises = [] ∧
    (deleteExercise c3db 1).sets = [] ∧
    (deleteExercise c3db 1).prs = [] ∧
    ¬ (∀ it ∈ (deleteExercise c3db 1).templateItems, it.exerciseId ≠ 1) := by
  decide

/-- Claim C3 (amended): `deleteExercise` removes every set referencing the
exercise, its PR row and the exercise row, keeps every row of those three
tables that does not reference the exercise, and leaves the workouts,
templates and templateItems tables untouched (so template-item references
to the exercise remain). -/
theorem deleteExercise_cascade (db : DB) (id : Nat) :
    (∀ s ∈ (deleteExercise db id).sets, s.exerciseId ≠ id) ∧
    (∀ p ∈ (deleteExercise db id).prs, p.exerciseId ≠ id) ∧
    (∀ e ∈ (deleteExercise db id).exercises, e.id ≠ id) ∧
    (∀ s ∈ db.sets, s.exerciseId ≠ id → s ∈ (deleteExercise db id).sets) ∧
    (∀ p ∈ db.prs, p.exerciseId ≠ id → p ∈ (deleteExercise db id).prs) ∧
    (∀ e ∈ db.exercises, e.id ≠ id → e ∈ (deleteExercise db id).exercises) ∧
    (deleteExercise db id).workouts = db.workouts ∧
    (deleteExercise db id).templates = db.templates ∧
    (deleteExercise db id).templateItems = db.templateItems := by
  refine ⟨?_, ?_, ?_, ?_, ?_, ?_, rfl, rfl, rfl⟩
  · intro s hs
    have := (List.mem_filter.mp hs).2
    simpa using this
  · intro p hp
    have := (List.mem_filter.mp hp).2
    simpa using this
  · intro e he
    have := (List.mem_filter.mp he).2
    simpa using this
  · intro s hs hne
    exact List.mem_filter.mpr ⟨hs, by simpa using hne⟩
  · intro p hp hne
    exact List.mem_filter.mpr ⟨hp, by simpa using hne⟩
  · intro e he hne
    exact List.mem_filter.mpr ⟨he, by simpa using hne⟩

/-- Claim C6 counterexample: `updateSet` (v4) applies the
non-allow-listed patch key `exerciseId`, changing the set's `exerciseId`
from 1 to 99 — keys outside the allow-list are not ignored. -/
theorem updateSet_applies_non_allowlisted_key :
    c6db.sets.map (fun s => s.exerciseId) = [1] ∧
    (updateSet c6db 1 c6patch).1.sets.map (fun s => s.exerciseId) = [99] ∧
    (updateSet c6db 1 c6patch).1.sets ≠ c6db.sets := by
  decide

/-- Claim C6 (amended): `updateSet(id, patch)` applies every key present
in the patch verbatim — including keys outside the reps/weightKg/
durationSec/setIndex allow-list — leaves every other set and every other
table unchanged, and returns the `exerciseId` the set had before the
update, or null when no set with that id exists. -/
theorem updateSet_patch_verbatim (db : DB) (id : Nat) (p : SetPatch)
    (hnd : (db.sets.map (fun s => s.id)).Nodup) :
    (updateSet db id p).2 = (db.sets.find? (fun s => s.id == id)).map (fun s => s.exerciseId) ∧
    (updateSet db id p).1.exercises = db.exercises ∧
    (updateSet db id p).1.workouts = db.workouts ∧
    (updateSet db id p).1.prs = db.prs ∧
    (updateSet db id p).1.templates = db.templates ∧
    (updateSet db id p).1.templateItems = db.templateItems ∧
    (∀ s ∈ db.sets, s.id ≠ id → s ∈ (updateSet db id p).1.sets) ∧
    (∀ s ∈ db.sets, s.id = id → applyPatch p s ∈ (updateSet db id p).1.sets) := by
  refine ⟨rfl, rfl, rfl, rfl, rfl, rfl, ?_, ?_⟩
  · intro s hs hne
    exact mem_updateBy_of_key_ne (fun s => s.id) id (applyPatch p) s hne db.sets hs
  · intro s hs hid
    have hf : ∀ a : SetRow, (applyPatch p a).id = a.id := fun a => rfl
    exact List.mem_of_find?_eq_some
      (find?_updateBy_of_nodup (fun s => s.id) id (applyPatch p) hf db.sets s hs hid hnd)

/-- Claim C6 witness: the amended theorem applied to a concrete set and
an allow-listed patch. -/
theorem updateSet_patch_verbatim_witness :
    (c6wdb.sets.map (fun s => s.id)).Nodup ∧
    ((updateSet c6wdb 2 c6wpatch).2 =
        (c6wdb.sets.find? (fun s => s.id == 2)).map (fun s => s.exerciseId) ∧
     (updateSet c6wdb 2 c6wpatch).1.exercises = c6wdb.exercises ∧
     (updateSet c6wdb 2 c6wpatch).1.workouts = c6wdb.workouts ∧
     (updateSet c6wdb 2 c6wpatch).1.prs = c6wdb.prs ∧
     (updateSet c6wdb 2 c6wpatch).1.templates = c6wdb.templates ∧
     (updateSet c6wdb 2 c6wpatch).1.templateItems = c6wdb.templateItems ∧
     (∀ s ∈ c6wdb.sets, s.id ≠ 2 → s ∈ (updateSet c6wdb 2 c6wpatch).1.sets) ∧
     (∀ s ∈ c6wdb.sets, s.id = 2 → applyPatch c6wpatch s ∈ (updateSet c6wdb 2 c6wpatch).1.sets)) :=
  ⟨by decide, updateSet_patch_verbatim c6wdb 2 c6wpatch (by decide)⟩

/-- Claim C9: every PR row written (and returned) by the v4
`updatePRForExercise` stores, in each of the four metric fields, either
null or a strictly positive value — never 0 — and the row is present in
the resulting `prs` table. -/
theorem updatePR_written_row_null_or_pos (db : DB) (id : Nat) (now : String)
    (db2 : DB) (r : PRRow) (h : updatePRForExercise db id now = (db2, some r)) :
    nullOrPos r.bestWeight ∧ nullOrPos r.bestReps ∧ nullOrPos r.bestDurationSec ∧
    nullOrPos r.best1RM ∧ r ∈ db2.prs := by
  cases hfind : db.exercises.find? (fun e => e.id == id) with
  | none =>
      simp only [updatePRForExercise, hfind, Prod.mk.injEq] at h
      exact absurd h.2 (by simp)
  | some ex =>
      simp only [updatePRForExercise, hfind, Prod.mk.injEq] at h
      obtain ⟨h1, h2⟩ := h
      have hr := Option.some.inj h2
      subst h1
      subst hr
      refine ⟨nullOrPos_orNull _ (jsMax0_nonneg _), nullOrPos_orNull _ (jsMax0_nonneg _),
              nullOrPos_orNull _ (jsMax0_nonneg _), nullOrPos_orNull _ (jsMax0_nonneg _), ?_⟩
      exact mem_putBy_self (fun p => p.exerciseId) _ db.prs

/-- Claim C9 witness: the invariant theorem applied to a concrete call
that writes a PR row. -/
theorem updatePR_written_row_null_or_pos_witness :
    updatePRForExercise c9db 1 "T" = (c9db2, some c9row) ∧
    (nullOrPos c9row.bestWeight ∧ nullOrPos c9row.bestReps ∧ nullOrPos c9row.bestDurationSec ∧
     nullOrPos c9row.best1RM ∧ c9row ∈ c9db2.prs) :=
  ⟨by decide, updatePR_written_row_null_or_pos c9db 1 "T" c9db2 c9row (by decide)⟩

/-- Claim C1 (amended): on a database whose tables have duplicate-free
primary keys, the replace-mode round trip
restoring `exportAll` output restores the exercises, workouts, sets,
templates and templateItems tables byte-for-byte; the prs table is not
restored verbatim — `importAll` ends by recomputing it from the imported
set history with a fresh `updatedAt`. -/
theorem roundTrip_restores_non_pr_tables (db : DB) (now1 now2 : String)
    (hE : (db.exercises.map (fun e => e.id)).Nodup)
    (hW : (db.workouts.map (fun w => w.id)).Nodup)
    (hS : (db.sets.map (fun s => s.id)).Nodup)
    (hT : (db.templates.map (fun t => t.id)).Nodup)
    (hI : (db.templateItems.map (fun it => it.id)).Nodup)
    (db2 : DB) (h : importAll db (some (exportAll db now1)) "replace" now2 = Except.ok db2) :
    db2.exercises = db.exercises ∧ db2.workouts = db.workouts ∧ db2.sets = db.sets ∧
    db2.templates = db.templates ∧ db2.templateItems = db.templateItems := by
  have hcalc : importAll db (some (exportAll db now1)) "replace" now2 =
      Except.ok (recalcAllPRs
        { exercises := bulkPut (fun e => e.id) [] db.exercises,
          workouts := bulkPut (fun w => w.id) [] db.workouts,
          sets := bulkPut (fun s => s.id) [] db.sets,
          prs := bulkPut (fun pr => pr.exerciseId) [] db.prs,
          templates := bulkPut (fun tp => tp.id) [] db.templates,
          templateItems := bulkPut (fun it => it.id) [] db.templateItems } now2) := rfl
  rw [hcalc, Except.ok.injEq] at h
  subst h
  have hfr := recalcAllPRs_frame
    { exercises := bulkPut (fun e => e.id) [] db.exercises,
      workouts := bulkPut (fun w => w.id) [] db.workouts,
      sets := bulkPut (fun s => s.id) [] db.sets,
      prs := bulkPut (fun pr => pr.exerciseId) [] db.prs,
      templates := bulkPut (fun tp => tp.id) [] db.templates,
      templateItems := bulkPut (fun it => it.id) [] db.templateItems } now2
  exact ⟨hfr.1.trans (bulkPut_nil_of_nodup _ _ hE),
         hfr.2.1.trans (bulkPut_nil_of_nodup _ _ hW),
         hfr.2.2.1.trans (bulkPut_nil_of_nodup _ _ hS),
         hfr.2.2.2.1.trans (bulkPut_nil_of_nodup _ _ hT),
         hfr.2.2.2.2.trans (bulkPut_nil_of_nodup _ _ hI)⟩

/-- Claim C1 witness: the amended round-trip theorem applied to a
concrete populated database (no exercises, so the PR recompute is a
no-op and the result is the original state). -/
theorem roundTrip_restores_non_pr_tables_witness :
    ((c1wdb.exercises.map (fun e => e.id)).Nodup ∧
     (c1wdb.workouts.map (fun w => w.id)).Nodup ∧
     (c1wdb.sets.map (fun s => s.id)).Nodup ∧
     (c1wdb.templates.map (fun t => t.id)).Nodup ∧
     (c1wdb.templateItems.map (fun it => it.id)).Nodup ∧
     importAll c1wdb (some (exportAll c1wdb "T0")) "replace" "T1" = Except.ok c1wdb) ∧
    (c1wdb.exercises = c1wdb.exercises ∧ c1wdb.workouts = c1wdb.workouts ∧
     c1wdb.sets = c1wdb.sets ∧ c1wdb.templates = c1wdb.templates ∧
     c1wdb.templateItems = c1wdb.templateItems) :=
  ⟨⟨by decide, by decide, by decide, by decide, by decide, by decide⟩,
   roundTrip_restores_non_pr_tables c1wdb "T0" "T1" (by decide) (by decide) (by decide)
     (by decide) (by decide) c1wdb (by decide)⟩

/-- Claim C10: merge-mode `importAll` never deletes rows — every
pre-existing exercise, workout, set, template and template-item row whose
id does not occur in the payload is still present, unchanged, after
the import (PR rows excluded: they are recomputed). -/
theorem importAll_merge_preserves_rows (db : DB) (p : Export) (now : String) (db2 : DB)
    (h : importAll db (some p) "merge" now = Except.ok db2) :
    (∀ e ∈ db.exercises, e.id ∉ p.tables.exercises.map (fun x => x.id) → e ∈ db2.exercises) ∧
    (∀ w ∈ db.workouts, w.id ∉ p.tables.workouts.map (fun x => x.id) → w ∈ db2.workouts) ∧
    (∀ s ∈ db.sets, s.id ∉ p.tables.sets.map (fun x => x.id) → s ∈ db2.sets) ∧
    (∀ t ∈ db.templates, t.id ∉ p.tables.templates.map (fun x => x.id) → t ∈ db2.templates) ∧
    (∀ it ∈ db.templateItems, it.id ∉ p.tables.templateItems.map (fun x => x.id) →
      it ∈ db2.templateItems) := by
  have hcalc : importAll db (some p) "merge" now =
      Except.ok (recalcAllPRs
        { exercises := bulkPut (fun e => e.id) db.exercises p.tables.exercises,
          workouts := bulkPut (fun w => w.id) db.workouts p.tables.workouts,
          sets := bulkPut (fun s => s.id) db.sets p.tables.sets,
          prs := bulkPut (fun pr => pr.exerciseId) db.prs p.tables.prs,
          templates := bulkPut (fun tp => tp.id) db.templates p.tables.templates,
          templateItems := bulkPut (fun it => it.id) db.templateItems p.tables.templateItems }
        now) := rfl
  rw [hcalc, Except.ok.injEq] at h
  subst h
  have hfr := recalcAllPRs_frame
    { exercises := bulkPut (fun e => e.id) db.exercises p.tables.exercises,
      workouts := bulkPut (fun w => w.id) db.workouts p.tables.workouts,
      sets := bulkPut (fun s => s.id) db.sets p.tables.sets,
      prs := bulkPut (fun pr => pr.exerciseId) db.prs p.tables.prs,
      templates := bulkPut (fun tp => tp.id) db.templates p.tables.templates,
      templateItems := bulkPut (fun it => it.id) db.templateItems p.tables.templateItems } now
  refine ⟨?_, ?_, ?_, ?_, ?_⟩
  · intro e he hid
    rw [hfr.1]
    exact bulkPut_mem (fun x => x.id) p.tables.exercises db.exercises e he hid
  · intro w hw hid
    rw [hfr.2.1]
    exact bulkPut_mem (fun x => x.id) p.tables.workouts db.workouts w hw hid
  · intro s hs hid
    rw [hfr.2.2.1]
    exact bulkPut_mem (fun x => x.id) p.tables.sets db.sets s hs hid
  · intro t ht hid
    rw [hfr.2.2.2.1]
    exact bulkPut_mem (fun x => x.id) p.tables.templates db.templates t ht hid
  · intro it hit hid
    rw [hfr.2.2.2.2]
    exact bulkPut_mem (fun x => x.id) p.tables.templateItems db.templateItems it hit hid

/-- Claim C10 witness: the merge-preservation theorem applied to a
concrete state and payload. -/
theorem importAll_merge_preserves_rows_witness :
    importAll c10wdb (some c10wp) "merge" "T" = Except.ok c10wout ∧
    ((∀ e ∈ c10wdb.exercises, e.id ∉ c10wp.tables.exercises.map (fun x => x.id) →
        e ∈ c10wout.exercises) ∧
     (∀ w ∈ c10wdb.workouts, w.id ∉ c10wp.tables.workouts.map (fun x => x.id) →
        w ∈ c10wout.workouts) ∧
     (∀ s ∈ c10wdb.sets, s.id ∉ c10wp.tables.sets.map (fun x => x.id) → s ∈ c10wout.sets) ∧
     (∀ t ∈ c10wdb.templates, t.id ∉ c10wp.tables.templates.map (fun x => x.id) →
        t ∈ c10wout.templates) ∧
     (∀ it ∈ c10wdb.templateItems, it.id ∉ c10wp.tables.templateItems.map (fun x => x.id) →
        it ∈ c10wout.templateItems)) :=
  ⟨by decide, importAll_merge_preserves_rows c10wdb c10wp "T" c10wout (by decide)⟩

/-- Claim C7: for an exercise present in the database, if it has at least
one logged set then `updateExerciseTimed` rejects with the
conversion-conflict error, and if it has zero sets the call succeeds,
the exercise's `isTimed` flag becomes the requested value, and nothing
else changes. -/
theorem updateExerciseTimed_guard (db : DB) (ex : Exercise) (b : Bool)
    (hmem : ex ∈ db.exercises) (hnd : (db.exercises.map (fun e => e.id)).Nodup) :
    (0 < (db.sets.filter (fun s => s.exerciseId == ex.id)).length →
      updateExerciseTimed db ex.id b =
        Except.error "Cannot convert timed/reps because this exercise already has logged sets.") ∧
    ((db.sets.filter (fun s => s.exerciseId == ex.id)).length = 0 →
      match updateExerciseTimed db ex.id b with
      | Except.ok db2 =>
          db2.exercises.find? (fun e2 => e2.id == ex.id) = some { ex with isTimed := b } ∧
          (∀ e2 ∈ db.exercises, e2.id ≠ ex.id → e2 ∈ db2.exercises) ∧
          db2.workouts = db.workouts ∧ db2.sets = db.sets ∧ db2.prs = db.prs ∧
          db2.templates = db.templates ∧ db2.templateItems = db.templateItems
      | Except.error _ => False) := by
  constructor
  · intro hc
    simp only [updateExerciseTimed]
    rw [if_pos hc]
  · intro hc
    have hnc : ¬ (0 < (db.sets.filter (fun s => s.exerciseId == ex.id)).length) := by omega
    simp only [updateExerciseTimed]
    rw [if_neg hnc]
    refine ⟨?_, ?_, rfl, rfl, rfl, rfl, rfl⟩
    · exact find?_updateBy_of_nodup (fun e => e.id) ex.id (fun e => { e with isTimed := b })
        (fun a => rfl) db.exercises ex hmem rfl hnd
    · intro e2 he2 hne
      exact mem_updateBy_of_key_ne (fun e => e.id) ex.id _ e2 hne db.exercises he2

/-- Claim C7 witness: the guard theorem applied to a concrete exercise
with zero sets. -/
theorem updateExerciseTimed_guard_witness :
    (c7wex ∈ c7wdb.exercises ∧ (c7wdb.exercises.map (fun e => e.id)).Nodup) ∧
    ((0 < (c7wdb.sets.filter (fun s => s.exerciseId == c7wex.id)).length →
      updateExerciseTimed c7wdb c7wex.id true =
        Except.error "Cannot convert timed/reps because this exercise already has logged sets.") ∧
    ((c7wdb.sets.filter (fun s => s.exerciseId == c7wex.id)).length = 0 →
      match updateExerciseTimed c7wdb c7wex.id true with
      | Except.ok db2 =>
          db2.exercises.find? (fun e2 => e2.id == c7wex.id) = some { c7wex with isTimed := true } ∧
          (∀ e2 ∈ c7wdb.exercises, e2.id ≠ c7wex.id → e2 ∈ db2.exercises) ∧
          db2.workouts = c7wdb.workouts ∧ db2.sets = c7wdb.sets ∧ db2.prs = c7wdb.prs ∧
          db2.templates = c7wdb.templates ∧ db2.templateItems = c7wdb.templateItems
      | Except.error _ => False)) :=
  ⟨⟨by decide, by decide⟩, updateExerciseTimed_guard c7wdb c7wex true (by decide) (by decide)⟩

set_option maxHeartbeats 1000000 in
/-- Claim C4: starting from a state with at most one workout row for the
date, calling `createWorkout(d)` twice returns the same id both times
and leaves exactly one workout row whose `dateISO` is the first 10
characters of `d` (idempotent get-or-create). -/
theorem createWorkout_get_or_create (db : DB) (d : String)
    (db1 : DB) (id1 : Nat) (db2 : DB) (id2 : Nat)
    (hbound : (db.workouts.filter (fun w => w.dateISO == jsSlice10 d)).length ≤ 1)
    (h1 : createWorkout db d "" = (db1, id1))
    (h2 : createWorkout db1 d "" = (db2, id2)) :
    id1 = id2 ∧
    (db2.workouts.filter (fun w => w.dateISO == jsSlice10 d)).length = 1 := by
  cases hfind : db.workouts.find? (fun w => w.dateISO == jsSlice10 d) with
  | some w =>
      have hc1 := h1.symm.trans (createWorkout_found db d "" w hfind)
      rw [Prod.mk.injEq] at hc1
      obtain ⟨hdb1, hid1⟩ := hc1
      rw [hdb1] at h2
      have hc2 := h2.symm.trans (createWorkout_found db d "" w hfind)
      rw [Prod.mk.injEq] at hc2
      obtain ⟨hdb2, hid2⟩ := hc2
      refine ⟨hid1.trans hid2.symm, ?_⟩
      rw [hdb2]
      have hmem := find?_mem_filter _ db.workouts w hfind
      have hpos := List.length_pos.mpr (List.ne_nil_of_mem hmem)
      omega
  | none =>
      have hc1 := h1.symm.trans (createWorkout_not_found db d "" hfind)
      rw [Prod.mk.injEq] at hc1
      obtain ⟨hdb1, hid1⟩ := hc1
      rw [hdb1] at h2
      have hnil : db.workouts.filter (fun w => w.dateISO == jsSlice10 d) = [] :=
        List.filter_eq_nil_iff.mpr (List.find?_eq_none.mp hfind)
      have hb : ((({ id := freshId (db.workouts.map (fun x => x.id)),
                     dateISO := jsSlice10 d, notes := "" } : Workout)).dateISO ==
          jsSlice10 d) = true := beq_self_eq_true (jsSlice10 d)
      have hfind2 :
          (db.workouts ++
            [({ id := freshId (db.workouts.map (fun x => x.id)),
                dateISO := jsSlice10 d, notes := "" } : Workout)]).find?
              (fun w => w.dateISO == jsSlice10 d) =
          some ({ id := freshId (db.workouts.map (fun x => x.id)),
                  dateISO := jsSlice10 d, notes := "" } : Workout) := by
        rw [find?_append_of_none _ _ _ hfind, List.find?_cons]
        simp only [hb]
      have hc2 := h2.symm.trans
        (createWorkout_found _ d ""
          ({ id := freshId (db.workouts.map (fun x => x.id)),
             dateISO := jsSlice10 d, notes := "" } : Workout) hfind2)
      rw [Prod.mk.injEq] at hc2
      obtain ⟨hdb2, hid2⟩ := hc2
      constructor
      · rw [hid1, hid2]
      · rw [hdb2]
        show ((db.workouts ++
            [({ id := freshId (db.workouts.map (fun x => x.id)),
                dateISO := jsSlice10 d, notes := "" } : Workout)]).filter
              (fun w => w.dateISO == jsSlice10 d)).length = 1
        rw [List.filter_append, hnil]
        simp [hb]

/-- Claim C4 witness: the get-or-create theorem applied to an empty
database and a full ISO timestamp. -/
theorem createWorkout_get_or_create_witness :
    ((c4wdb.workouts.filter
        (fun w => w.dateISO == jsSlice10 "2024-05-06T12:00:00.000Z")).length ≤ 1 ∧
     createWorkout c4wdb "2024-05-06T12:00:00.000Z" "" = (c4wdb1, 1) ∧
     createWorkout c4wdb1 "2024-05-06T12:00:00.000Z" "" = (c4wdb1, 1)) ∧
    ((1 : Nat) = 1 ∧
     (c4wdb1.workouts.filter
        (fun w => w.dateISO == jsSlice10 "2024-05-06T12:00:00.000Z")).length = 1) :=
  ⟨⟨by decide, by decide, by decide⟩,
   createWorkout_get_or_create c4wdb "2024-05-06T12:00:00.000Z" c4wdb1 1 c4wdb1 1
     (by decide) (by decide) (by decide)⟩

set_option maxHeartbeats 1000000 in
/-- Claim C8: when no template item for the pair exists yet, calling
`addTemplateItem(t, e)` twice returns the same item id both times, the
table gains exactly the one new row — appended with
`order = currentCount + 1` where `currentCount` is the template's item
count before the insert — and exactly one row for the pair exists
afterwards. -/
theorem addTemplateItem_idempotent (db : DB) (t e : Nat)
    (db1 : DB) (id1 : Nat) (db2 : DB) (id2 : Nat)
    (hnone : db.templateItems.find? (fun it => it.templateId == t && it.exerciseId == e) = none)
    (h1 : addTemplateItem db t e = (db1, id1))
    (h2 : addTemplateItem db1 t e = (db2, id2)) :
    id1 = id2 ∧
    db2.templateItems =
      db.templateItems ++
        [{ id := freshId (db.templateItems.map (fun x => x.id)), templateId := t,
           exerciseId := e,
           order := (db.templateItems.filter (fun x => x.templateId == t)).length + 1,
           defaultReps := none, defaultDurationSec := none, defaultWeightKg := none }] ∧
    (db2.templateItems.filter
        (fun it => it.templateId == t && it.exerciseId == e)).length = 1 := by
  have hc1 := h1.symm.trans (addTemplateItem_not_found db t e hnone)
  rw [Prod.mk.injEq] at hc1
  obtain ⟨hdb1, hid1⟩ := hc1
  rw [hdb1] at h2
  have hnil : db.templateItems.filter (fun it => it.templateId == t && it.exerciseId == e) = [] :=
    List.filter_eq_nil_iff.mpr (List.find?_eq_none.mp hnone)
  have hb : ((({ id := freshId (db.templateItems.map (fun x => x.id)), templateId := t,
                 exerciseId := e,
                 order := (db.templateItems.filter (fun x => x.templateId == t)).length + 1,
                 defaultReps := none, defaultDurationSec := none,
                 defaultWeightKg := none } : TemplateItem)).templateId == t &&
      (({ id := freshId (db.templateItems.map (fun x => x.id)), templateId := t,
          exerciseId := e,
          order := (db.templateItems.filter (fun x => x.templateId == t)).length + 1,
          defaultReps := none, defaultDurationSec := none,
          defaultWeightKg := none } : TemplateItem)).exerciseId == e) = true := by
    show ((t == t && e == e) = true)
    simp
  have hfind2 :
      (db.templateItems ++
        [({ id := freshId (db.templateItems.map (fun x => x.id)), templateId := t,
            exerciseId := e,
            order := (db.templateItems.filter (fun x => x.templateId == t)).length + 1,
            defaultReps := none, defaultDurationSec := none,
            defaultWeightKg := none } : TemplateItem)]).find?
          (fun it => it.templateId == t && it.exerciseId == e) =
      some ({ id := freshId (db.templateItems.map (fun x => x.id)), templateId := t,
              exerciseId := e,
              order := (db.templateItems.filter (fun x => x.templateId == t)).length + 1,
              defaultReps := none, defaultDurationSec := none,
              defaultWeightKg := none } : TemplateItem) := by
    rw [find?_append_of_none _ _ _ hnone, List.find?_cons]
    simp only [hb]
  have hc2 := h2.symm.trans
    (addTemplateItem_found _ t e
      ({ id := freshId (db.templateItems.map (fun x => x.id)), templateId := t,
         exerciseId := e,
         order := (db.templateItems.filter (fun x => x.templateId == t)).length + 1,
         defaultReps := none, defaultDurationSec := none,
         defaultWeightKg := none } : TemplateItem) hfind2)
  rw [Prod.mk.injEq] at hc2
  obtain ⟨hdb2, hid2⟩ := hc2
  refine ⟨by rw [hid1, hid2], by rw [hdb2], ?_⟩
  rw [hdb2]
  show ((db.templateItems ++
      [({ id := freshId (db.templateItems.map (fun x => x.id)), templateId := t,
          exerciseId := e,
          order := (db.templateItems.filter (fun x => x.templateId == t)).length + 1,
          defaultReps := none, defaultDurationSec := none,
          defaultWeightKg := none } : TemplateItem)]).filter
        (fun it => it.templateId == t && it.exerciseId == e)).length = 1
  rw [List.filter_append, hnil]
  simp [hb]

/-- Claim C8 witness: the idempotence theorem applied to a concrete
template and exercise with no existing item. -/
theorem addTemplateItem_idempotent_witness :
    (c8wdb.templateItems.find? (fun it => it.templateId == 1 && it.exerciseId == 2) = none ∧
     addTemplateItem c8wdb 1 2 = (c8wdb1, 1) ∧
     addTemplateItem c8wdb1 1 2 = (c8wdb1, 1)) ∧
    ((1 : Nat) = 1 ∧
     c8wdb1.templateItems =
       c8wdb.templateItems ++
         [{ id := freshId (c8wdb.templateItems.map (fun x => x.id)), templateId := 1,
            exerciseId := 2,
            order := (c8wdb.templateItems.filter (fun x => x.templateId == 1)).length + 1,
            defaultReps := none, defaultDurationSec := none, defaultWeightKg := none }] ∧
     (c8wdb1.templateItems.filter
         (fun it => it.templateId == 1 && it.exerciseId == 2)).length = 1) :=
  ⟨⟨by decide, by decide, by decide⟩,
   addTemplateItem_idempotent c8wdb 1 2 c8wdb1 1 c8wdb1 1 (by decide) (by decide) (by decide)⟩
